import Mathlib

/-!
# nvme-cli: the SED Opal verb handlers and the OCP C0 log page reader

A shallow embedding of `plugins/sed/sed.c` (the six `sed_opal_*` verb handlers
and `sed_opal_open_device`) and of `get_c0_log_page` from
`plugins/ocp/ocp-smart-extended-log.c`.

The handlers are sequential C functions whose only effects are calls into
collaborators that are not part of the embedded sources (`parse_and_open`,
`nvme_link_is_blkdev`, `sedopal_cmd_*`, `sedopal_error_to_text`, ...), writes
to `stderr` and the scope cleanup of the two handles.  Each function is
embedded as a pure function from the behaviour of those collaborators to its
return value, the trace of the effects it performed, and the state of the
device behind the security channel.
-/

namespace Sed

/-! ## Constants of `<errno.h>` (Linux values) -/

/-- The errno value `EPERM`. -/
def EPERM : Int := 1

/-- The errno value `EINVAL`. -/
def EINVAL : Int := 22

/-- The errno value `EOPNOTSUPP`. -/
def EOPNOTSUPP : Int := 95

/-! ## Option tables -/

/-- The process-wide option flags that the option tables of `sed.c` point at. -/
inductive Flag
  | sedopal_lock_ro
  | sedopal_ask_key
  | sedopal_destructive_revert
  | sedopal_psid_revert
  | sedopal_discovery_verbose
  | sedopal_discovery_udev
  deriving DecidableEq, Repr

/-- One `OPT_FLAG(long, short, &target, help)` entry of an option table. -/
structure OptFlag where
  long : String
  short : Char
  target : Flag
  help : String
  deriving DecidableEq, Repr

/-- The table `OPT_ARGS(no_opts)`. -/
def no_opts : List OptFlag := []

/-- The table `OPT_ARGS(init_opts)`. -/
def init_opts : List OptFlag :=
  [⟨"read-only", 'r', Flag.sedopal_lock_ro, "Set locking range to read-only"⟩]

/-- The table `OPT_ARGS(key_opts)`. -/
def key_opts : List OptFlag :=
  [⟨"ask-key", 'k', Flag.sedopal_ask_key, "prompt for SED authentication key"⟩]

/-- The table `OPT_ARGS(revert_opts)`. -/
def revert_opts : List OptFlag :=
  [⟨"destructive", 'e', Flag.sedopal_destructive_revert, "destructive revert"⟩,
   ⟨"psid", 'p', Flag.sedopal_psid_revert, "PSID revert"⟩]

/-- The table `OPT_ARGS(lock_opts)`. -/
def lock_opts : List OptFlag :=
  [⟨"read-only", 'r', Flag.sedopal_lock_ro, "Set locking range to read-only"⟩,
   ⟨"ask-key", 'k', Flag.sedopal_ask_key, "prompt for SED authentication key"⟩]

/-- The table `OPT_ARGS(discovery_opts)`. -/
def discovery_opts : List OptFlag :=
  [⟨"verbose", 'v', Flag.sedopal_discovery_verbose,
    "Print extended discovery information"⟩,
   ⟨"udev", 'u', Flag.sedopal_discovery_udev,
    "Print locking information in form suitable for udev rules"⟩]

/-- The values of the process-wide option flags once the command line has been
parsed. -/
structure Globals where
  sedopal_lock_ro : Bool
  sedopal_ask_key : Bool
  sedopal_destructive_revert : Bool
  sedopal_psid_revert : Bool
  sedopal_discovery_verbose : Bool
  sedopal_discovery_udev : Bool
  deriving DecidableEq, Repr

/-! ## Collaborators -/

/-- What one call of `parse_and_open(&r, &l, argc, argv, desc, opts)` leaves
behind: its return value, the root and link handles stored through `r` and
`l` (`none` is `NULL`), and the option flags it parsed. -/
structure ParseOutcome where
  err : Int
  r : Option Nat
  l : Option Nat
  globals : Globals
  deriving DecidableEq, Repr

/-- The collaborators of the handlers on the host side.  None of them is part
of the embedded sources, so each is a parameter. -/
structure Host where
  parse_and_open : List String → String → List OptFlag → ParseOutcome
  nvme_link_is_blkdev : Option Nat → Bool
  nvme_link_get_fd : Option Nat → Int
  sedopal_error_to_text : Int → String

/-- The security channel: one function per `sedopal_cmd_*`, taking the file
descriptor, the option flags (which the commands read as globals) and the
state of the device, and returning the status and the new device state. -/
structure Channel (σ : Type) where
  sedopal_cmd_discover : Int → Globals → σ → Int × σ
  sedopal_cmd_initialize : Int → Globals → σ → Int × σ
  sedopal_cmd_revert : Int → Globals → σ → Int × σ
  sedopal_cmd_lock : Int → Globals → σ → Int × σ
  sedopal_cmd_unlock : Int → Globals → σ → Int × σ
  sedopal_cmd_password : Int → Globals → σ → Int × σ

/-! ## Effects -/

/-- The six verbs of the plugin. -/
inductive Verb
  | discover
  | init
  | revert
  | lock
  | unlock
  | password
  deriving DecidableEq, Repr

/-- The observable effects of a handler, in program order. -/
inductive Event
  | parse_and_open (desc : String) (opts : List OptFlag) (err : Int)
      (r l : Option Nat)
  | nvme_link_is_blkdev (l : Option Nat)
  | stderr (text : String)
  | sedopal_cmd (v : Verb) (fd : Int)
  | release_link (l : Nat)
  | release_root (r : Nat)
  deriving DecidableEq, Repr

/-- Modelled from the spec: the `_cleanup_nvme_link_` scope-cleanup macro is
not in the embedded sources.  Following the spec ("released exactly once on
every exit path"), leaving the scope of the link variable releases the handle
it holds, and does nothing when it is still `NULL`. -/
def cleanup_nvme_link (l : Option Nat) : List Event :=
  match l with
  | none => []
  | some x => [Event.release_link x]

/-- Modelled from the spec: the `_cleanup_nvme_root_` scope-cleanup macro is
not in the embedded sources.  Leaving the scope of the root variable releases
the root it holds, and does nothing when it is still `NULL`. -/
def cleanup_nvme_root (r : Option Nat) : List Event :=
  match r with
  | none => []
  | some x => [Event.release_root x]

/-- The cleanups that run when a handler returns: variables are cleaned up in
reverse order of declaration, and every handler declares `r` before `l`. -/
def scope_exit (r l : Option Nat) : List Event :=
  cleanup_nvme_link l ++ cleanup_nvme_root r

/-- The result of `sed_opal_open_device`: its return value, the handles and
option flags left behind by `parse_and_open`, and the effects performed. -/
structure OpenResult where
  err : Int
  r : Option Nat
  l : Option Nat
  globals : Globals
  trace : List Event
  deriving DecidableEq, Repr

/-- The result of a verb handler: its return value, the effects performed
(scope cleanup included) and the device state afterwards. -/
structure Result (σ : Type) where
  ret : Int
  trace : List Event
  state : σ
  deriving DecidableEq, Repr

/-! ## The functions of `sed.c` -/

/-- The function `sed_opal_open_device`. -/
def sed_opal_open_device (h : Host) (argv : List String) (desc : String)
    (opts : List OptFlag) : OpenResult :=
  let p := h.parse_and_open argv desc opts
  let t := [Event.parse_and_open desc opts p.err p.r p.l]
  if p.err ≠ 0 then
    ⟨p.err, p.r, p.l, p.globals, t⟩
  else if !(h.nvme_link_is_blkdev p.l) then
    ⟨-EINVAL, p.r, p.l, p.globals,
      t ++ [Event.nvme_link_is_blkdev p.l,
            Event.stderr "ERROR : The NVMe block device must be specified\n"]⟩
  else
    ⟨p.err, p.r, p.l, p.globals, t ++ [Event.nvme_link_is_blkdev p.l]⟩

/-- The function `sed_opal_discover`. -/
def sed_opal_discover {σ : Type} (h : Host) (ch : Channel σ)
    (argv : List String) (s : σ) : Result σ :=
  let desc := "Query SED device and display locking features"
  let o := sed_opal_open_device h argv desc discovery_opts
  if o.err ≠ 0 then
    ⟨o.err, o.trace ++ scope_exit o.r o.l, s⟩
  else
    let fd := h.nvme_link_get_fd o.l
    let c := ch.sedopal_cmd_discover fd o.globals s
    let err := c.1
    ⟨err, o.trace ++ [Event.sedopal_cmd Verb.discover fd] ++ scope_exit o.r o.l,
      c.2⟩

/-- The function `sed_opal_initialize`. -/
def sed_opal_initialize {σ : Type} (h : Host) (ch : Channel σ)
    (argv : List String) (s : σ) : Result σ :=
  let desc := "Initialize a SED device for locking"
  let o := sed_opal_open_device h argv desc init_opts
  if o.err ≠ 0 then
    ⟨o.err, o.trace ++ scope_exit o.r o.l, s⟩
  else
    let fd := h.nvme_link_get_fd o.l
    let c := ch.sedopal_cmd_initialize fd o.globals s
    let err := c.1
    let msg :=
      if err ≠ 0 ∧ err ≠ -EOPNOTSUPP then
        [Event.stderr
          ("initialize: SED error -  " ++ h.sedopal_error_to_text err ++ "\n")]
      else []
    ⟨err, o.trace ++ [Event.sedopal_cmd Verb.init fd] ++ msg
        ++ scope_exit o.r o.l, c.2⟩

/-- The function `sed_opal_revert`. -/
def sed_opal_revert {σ : Type} (h : Host) (ch : Channel σ)
    (argv : List String) (s : σ) : Result σ :=
  let desc := "Revert a SED device from locking state"
  let o := sed_opal_open_device h argv desc revert_opts
  if o.err ≠ 0 then
    ⟨o.err, o.trace ++ scope_exit o.r o.l, s⟩
  else
    let fd := h.nvme_link_get_fd o.l
    let c := ch.sedopal_cmd_revert fd o.globals s
    let err := c.1
    let msg :=
      if err ≠ 0 ∧ err ≠ -EOPNOTSUPP ∧ err ≠ EPERM then
        [Event.stderr
          ("revert: SED error -  " ++ h.sedopal_error_to_text err ++ "\n")]
      else []
    ⟨err, o.trace ++ [Event.sedopal_cmd Verb.revert fd] ++ msg
        ++ scope_exit o.r o.l, c.2⟩

/-- The function `sed_opal_lock`. -/
def sed_opal_lock {σ : Type} (h : Host) (ch : Channel σ)
    (argv : List String) (s : σ) : Result σ :=
  let desc := "Lock a SED device"
  let o := sed_opal_open_device h argv desc lock_opts
  if o.err ≠ 0 then
    ⟨o.err, o.trace ++ scope_exit o.r o.l, s⟩
  else
    let fd := h.nvme_link_get_fd o.l
    let c := ch.sedopal_cmd_lock fd o.globals s
    let err := c.1
    let msg :=
      if err ≠ 0 ∧ err ≠ -EOPNOTSUPP then
        [Event.stderr
          ("lock: SED error -  " ++ h.sedopal_error_to_text err ++ "\n")]
      else []
    ⟨err, o.trace ++ [Event.sedopal_cmd Verb.lock fd] ++ msg
        ++ scope_exit o.r o.l, c.2⟩

/-- The function `sed_opal_unlock`. -/
def sed_opal_unlock {σ : Type} (h : Host) (ch : Channel σ)
    (argv : List String) (s : σ) : Result σ :=
  let desc := "Unlock a SED device"
  let o := sed_opal_open_device h argv desc lock_opts
  if o.err ≠ 0 then
    ⟨o.err, o.trace ++ scope_exit o.r o.l, s⟩
  else
    let fd := h.nvme_link_get_fd o.l
    let c := ch.sedopal_cmd_unlock fd o.globals s
    let err := c.1
    let msg :=
      if err ≠ 0 ∧ err ≠ -EOPNOTSUPP then
        [Event.stderr
          ("unlock: SED error -  " ++ h.sedopal_error_to_text err ++ "\n")]
      else []
    ⟨err, o.trace ++ [Event.sedopal_cmd Verb.unlock fd] ++ msg
        ++ scope_exit o.r o.l, c.2⟩

/-- The function `sed_opal_password`. -/
def sed_opal_password {σ : Type} (h : Host) (ch : Channel σ)
    (argv : List String) (s : σ) : Result σ :=
  let desc := "Change the locking password of a SED device"
  let o := sed_opal_open_device h argv desc no_opts
  if o.err ≠ 0 then
    ⟨o.err, o.trace ++ scope_exit o.r o.l, s⟩
  else
    let fd := h.nvme_link_get_fd o.l
    let c := ch.sedopal_cmd_password fd o.globals s
    let err := c.1
    let msg :=
      if err ≠ 0 ∧ err ≠ EPERM then
        [Event.stderr
          ("password: SED error -  " ++ h.sedopal_error_to_text err ++ "\n")]
      else []
    ⟨err, o.trace ++ [Event.sedopal_cmd Verb.password fd] ++ msg
        ++ scope_exit o.r o.l, c.2⟩

/-! ## The verb table and projections of a trace -/

/-- The handler registered for each verb. -/
def handler {σ : Type} (v : Verb) (h : Host) (ch : Channel σ)
    (argv : List String) (s : σ) : Result σ :=
  match v with
  | Verb.discover => sed_opal_discover h ch argv s
  | Verb.init => sed_opal_initialize h ch argv s
  | Verb.revert => sed_opal_revert h ch argv s
  | Verb.lock => sed_opal_lock h ch argv s
  | Verb.unlock => sed_opal_unlock h ch argv s
  | Verb.password => sed_opal_password h ch argv s

/-- The description string each handler passes to `sed_opal_open_device`. -/
def desc_of (v : Verb) : String :=
  match v with
  | Verb.discover => "Query SED device and display locking features"
  | Verb.init => "Initialize a SED device for locking"
  | Verb.revert => "Revert a SED device from locking state"
  | Verb.lock => "Lock a SED device"
  | Verb.unlock => "Unlock a SED device"
  | Verb.password => "Change the locking password of a SED device"

/-- The option table each handler passes to `sed_opal_open_device`. -/
def opts_of (v : Verb) : List OptFlag :=
  match v with
  | Verb.discover => discovery_opts
  | Verb.init => init_opts
  | Verb.revert => revert_opts
  | Verb.lock => lock_opts
  | Verb.unlock => lock_opts
  | Verb.password => no_opts

/-- The `sedopal_cmd_*` function each handler calls. -/
def cmd_of {σ : Type} (ch : Channel σ) (v : Verb) : Int → Globals → σ → Int × σ :=
  match v with
  | Verb.discover => ch.sedopal_cmd_discover
  | Verb.init => ch.sedopal_cmd_initialize
  | Verb.revert => ch.sedopal_cmd_revert
  | Verb.lock => ch.sedopal_cmd_lock
  | Verb.unlock => ch.sedopal_cmd_unlock
  | Verb.password => ch.sedopal_cmd_password

/-- The outcome of the `parse_and_open` call made on behalf of verb `v`. -/
def parsed (h : Host) (argv : List String) (v : Verb) : ParseOutcome :=
  h.parse_and_open argv (desc_of v) (opts_of v)

/-- The `sed_opal_open_device` call made by the handler of verb `v`. -/
def opened (h : Host) (argv : List String) (v : Verb) : OpenResult :=
  sed_opal_open_device h argv (desc_of v) (opts_of v)

/-- The status and device state that the `sedopal_cmd_*` call of verb `v`
yields when the handler reaches it. -/
def command {σ : Type} (v : Verb) (h : Host) (ch : Channel σ)
    (argv : List String) (s : σ) : Int × σ :=
  cmd_of ch v (h.nvme_link_get_fd (opened h argv v).l) (opened h argv v).globals s

/-- The verbs whose `sedopal_cmd_*` function was called, in order. -/
def cmds (t : List Event) : List Verb :=
  t.filterMap fun e =>
    match e with
    | Event.sedopal_cmd v _ => some v
    | _ => none

/-- The texts written to `stderr`, in order. -/
def stderr_text (t : List Event) : List String :=
  t.filterMap fun e =>
    match e with
    | Event.stderr m => some m
    | _ => none

/-- The calls of `parse_and_open`, each with the link handle it left behind. -/
def opens (t : List Event) : List (Option Nat) :=
  t.filterMap fun e =>
    match e with
    | Event.parse_and_open _ _ _ _ l => some l
    | _ => none

/-- The link handles released, in order. -/
def link_releases (t : List Event) : List Nat :=
  t.filterMap fun e =>
    match e with
    | Event.release_link l => some l
    | _ => none

/-- The root handles released, in order. -/
def root_releases (t : List Event) : List Nat :=
  t.filterMap fun e =>
    match e with
    | Event.release_root r => some r
    | _ => none

/-- Whether an event releases a handle. -/
def Event.is_release (e : Event) : Bool :=
  match e with
  | Event.release_link _ => true
  | Event.release_root _ => true
  | _ => false

/-- Whether an event is a call of a `sedopal_cmd_*` function. -/
def Event.is_cmd (e : Event) : Bool :=
  match e with
  | Event.sedopal_cmd _ _ => true
  | _ => false

/-- The verb name each handler puts in front of its message. -/
def verb_name (v : Verb) : String :=
  match v with
  | Verb.discover => "discover"
  | Verb.init => "initialize"
  | Verb.revert => "revert"
  | Verb.lock => "lock"
  | Verb.unlock => "unlock"
  | Verb.password => "password"

/-- The message form of the specification for verb `v` and status text `text`:
"<verb>: SED error - <text>" with a single space after the dash, followed by
a newline.  It follows the words of the specification, not the code. -/
def spec_message (v : Verb) (text : String) : String :=
  verb_name v ++ ": SED error - " ++ text ++ "\n"

/-! ## The device state machine of the specification -/

/-- The device states of the specification. -/
inductive OpalDeviceState
  | Uninitialized
  | Initialized
  | Locked
  | Unlocked
  deriving DecidableEq, Repr

/-- Modelled from the spec: the device behind the security channel, reduced to
what the state machine of the specification speaks of: whether the device
supports the locking feature, and its `OpalDeviceState`. -/
structure OpalDevice where
  supported : Bool
  state : OpalDeviceState
  deriving DecidableEq, Repr

/-- Modelled from the spec: `sedopal_cmd_initialize` is not in the embedded
sources.  Following the specification, a device that does not support the
feature fails with `NotSupported` (`-EOPNOTSUPP`); initialize is valid only
from `Uninitialized`, where it succeeds with status 0 and moves the device to
`Initialized`; from every other state it is rejected with the status `rej` of
a state-precondition violation and the device is left as it was. -/
def spec_cmd_initialize (rej : Int) (_fd : Int) (_g : Globals) (d : OpalDevice) :
    Int × OpalDevice :=
  if !d.supported then
    (-EOPNOTSUPP, d)
  else
    match d.state with
    | OpalDeviceState.Uninitialized => (0, { d with state := OpalDeviceState.Initialized })
    | _ => (rej, d)

/-- The message events a handler adds after its command returned `st`; the
handlers are shown to behave so in `handler_of_open_ok`. -/
def report (v : Verb) (h : Host) (st : Int) : List Event :=
  match v with
  | Verb.discover => []
  | Verb.init =>
      if st ≠ 0 ∧ st ≠ -EOPNOTSUPP then
        [Event.stderr ("initialize: SED error -  " ++ h.sedopal_error_to_text st ++ "\n")]
      else []
  | Verb.revert =>
      if st ≠ 0 ∧ st ≠ -EOPNOTSUPP ∧ st ≠ EPERM then
        [Event.stderr ("revert: SED error -  " ++ h.sedopal_error_to_text st ++ "\n")]
      else []
  | Verb.lock =>
      if st ≠ 0 ∧ st ≠ -EOPNOTSUPP then
        [Event.stderr ("lock: SED error -  " ++ h.sedopal_error_to_text st ++ "\n")]
      else []
  | Verb.unlock =>
      if st ≠ 0 ∧ st ≠ -EOPNOTSUPP then
        [Event.stderr ("unlock: SED error -  " ++ h.sedopal_error_to_text st ++ "\n")]
      else []
  | Verb.password =>
      if st ≠ 0 ∧ st ≠ EPERM then
        [Event.stderr ("password: SED error -  " ++ h.sedopal_error_to_text st ++ "\n")]
      else []

/-! ## Sample collaborators, used to evaluate the handlers -/

/-- Option flags with nothing set. -/
def no_flags : Globals := ⟨false, false, false, false, false, false⟩

/-- A host on which `parse_and_open` succeeds with root 1 and link 2, the link
is a block device with file descriptor 3, and every status has the text
"Failed". -/
def block_host : Host :=
  { parse_and_open := fun _ _ _ => ⟨0, some 1, some 2, no_flags⟩
    nvme_link_is_blkdev := fun _ => true
    nvme_link_get_fd := fun _ => 3
    sedopal_error_to_text := fun _ => "Failed" }

/-- A host on which `parse_and_open` succeeds but the link is a character
device. -/
def char_host : Host :=
  { block_host with nvme_link_is_blkdev := fun _ => false }

/-- A channel without device state whose every command returns `st`. -/
def const_channel (st : Int) : Channel Unit :=
  { sedopal_cmd_discover := fun _ _ _ => (st, ())
    sedopal_cmd_initialize := fun _ _ _ => (st, ())
    sedopal_cmd_revert := fun _ _ _ => (st, ())
    sedopal_cmd_lock := fun _ _ _ => (st, ())
    sedopal_cmd_unlock := fun _ _ _ => (st, ())
    sedopal_cmd_password := fun _ _ _ => (st, ()) }

/-- A channel to a device of the specification on which only discover and
initialize are served: discover reads the device and succeeds, initialize is
`spec_cmd_initialize`, and every other command is answered `-EOPNOTSUPP`
without touching the device. -/
def init_only_channel (rej : Int) : Channel OpalDevice :=
  { sedopal_cmd_discover := fun _ _ d => (0, d)
    sedopal_cmd_initialize := spec_cmd_initialize rej
    sedopal_cmd_revert := fun _ _ d => (-EOPNOTSUPP, d)
    sedopal_cmd_lock := fun _ _ d => (-EOPNOTSUPP, d)
    sedopal_cmd_unlock := fun _ _ d => (-EOPNOTSUPP, d)
    sedopal_cmd_password := fun _ _ d => (-EOPNOTSUPP, d) }

end Sed

namespace Ocp

/-! ## `get_c0_log_page` of `plugins/ocp/ocp-smart-extended-log.c` -/

/-- The length `C0_SMART_CLOUD_ATTR_LEN` of the C0 SCAO log page. -/
def C0_SMART_CLOUD_ATTR_LEN : Nat := 0x200

/-- The expected GUID `scao_guid`, byte by byte. -/
def scao_guid : Fin 16 → Fin 256 :=
  ![0xC5, 0xAF, 0x10, 0x28,
    0xEA, 0xBF, 0xF2, 0xA4,
    0x9C, 0x4F, 0x6F, 0x7C,
    0xC9, 0x14, 0xD5, 0xAF]

/-- The log buffer `struct ocp_smart_extended_log`, of which the function
reads the 16 bytes `log_page_guid` only; the layout of the rest is not in the
embedded sources. -/
structure ocp_smart_extended_log where
  log_page_guid : Fin 16 → Fin 256

/-- The collaborators of `get_c0_log_page`, none of which is in the embedded
sources.  `validate_output_format` yields its return value and the flags it
stores in `fmt`; `malloc_ok` says whether `malloc` returns a buffer and
`strerror_errno` is the text of `strerror(errno)` when it does not;
`ocp_get_uuid_index` yields the value left in `args.uidx` for a link;
`nvme_get_log` yields, for a link and UUID index (its other arguments are
fixed by the function), the status and the contents of the buffer after the
call. -/
structure Env where
  validate_output_format : String → Int × Nat
  malloc_ok : Bool
  strerror_errno : String
  ocp_get_uuid_index : Nat → Nat
  nvme_get_log : Nat → Nat → Int × ocp_smart_extended_log
  nvme_status_to_string : Int → Bool → String

/-- The observable effects of `get_c0_log_page`, in program order. -/
inductive Event
  | stderr (text : String)
  | nvme_get_log (l uidx len : Nat)
  | ocp_smart_extended_log (data : ocp_smart_extended_log) (format_version fmt : Nat)
  | free

/-- The return value and the effects of `get_c0_log_page`. -/
structure Result where
  ret : Int
  trace : List Event

/-- The conversion `%x` of a non-negative value: lower-case hexadecimal
without padding. -/
def hex (n : Nat) : String :=
  String.mk (Nat.toDigits 16 n)

/-- The conversion `%x` of an `int`, which prints its 32-bit two's complement
pattern. -/
def hex_int (r : Int) : String :=
  hex (r % 2 ^ 32).toNat

/-- The loop `for (i = 0; i < 16; i++)` over the indices still to visit: the
first index at which `scao_guid` and `log_page_guid` differ, where the loop is
left through `goto out`, or `none` when the loop runs to its end. -/
def guid_loop (data : ocp_smart_extended_log) : List (Fin 16) → Option (Fin 16)
  | [] => none
  | i :: rest =>
      if scao_guid i ≠ data.log_page_guid i then some i else guid_loop data rest

/-- The loops `for (j = 0; j < 16; j++) fprintf(stderr, "%x", g[j])`. -/
def print_guid (g : Fin 16 → Fin 256) : List Event :=
  (List.finRange 16).map fun j => Event.stderr (hex (g j).val)

/-- The function `get_c0_log_page`. -/
def get_c0_log_page (env : Env) (l : Nat) (format : String)
    (format_version : Nat) : Result :=
  let v := env.validate_output_format format
  let fmt := v.2
  if v.1 < 0 then
    ⟨v.1, [Event.stderr "ERROR : OCP : invalid output format\n"]⟩
  else if !env.malloc_ok then
    ⟨-1, [Event.stderr ("ERROR : OCP : malloc : " ++ env.strerror_errno ++ "\n")]⟩
  else
    let uidx := env.ocp_get_uuid_index l
    let g := env.nvme_get_log l uidx
    let ret := g.1
    let data := g.2
    let t :=
      [Event.nvme_get_log l uidx C0_SMART_CLOUD_ATTR_LEN] ++
      (if format ≠ "json" then
        [Event.stderr ("NVMe Status:" ++ env.nvme_status_to_string ret false
          ++ "(" ++ hex_int ret ++ ")\n")]
      else [])
    if ret = 0 then
      match guid_loop data (List.finRange 16) with
      | some _ =>
          ⟨-1, t ++
            [Event.stderr "ERROR : OCP : Unknown GUID in C0 Log Page data\n",
             Event.stderr "ERROR : OCP : Expected GUID:  0x"]
            ++ print_guid scao_guid
            ++ [Event.stderr "\nERROR : OCP : Actual GUID:    0x"]
            ++ print_guid data.log_page_guid
            ++ [Event.stderr "\n", Event.free]⟩
      | none =>
          ⟨ret, t ++ [Event.ocp_smart_extended_log data format_version fmt,
                      Event.free]⟩
    else
      ⟨ret, t ++ [Event.stderr "ERROR : OCP : Unable to read C0 data from buffer\n",
                  Event.free]⟩

/-- The calls of `ocp_smart_extended_log`, each with the buffer, the format
version and the flags it was given. -/
def prints (t : List Event) : List (ocp_smart_extended_log × Nat × Nat) :=
  t.filterMap fun e =>
    match e with
    | Event.ocp_smart_extended_log data fv fmt => some (data, fv, fmt)
    | _ => none

/-- A log page whose GUID is the expected one. -/
def good_page : ocp_smart_extended_log := ⟨scao_guid⟩

/-- A log page of zero bytes. -/
def zero_page : ocp_smart_extended_log := ⟨fun _ => 0⟩

/-- Collaborators for which the format validates with flags 1, allocation
succeeds and `nvme_get_log` returns `r` and the page `p`. -/
def sample_env (r : Int) (p : ocp_smart_extended_log) : Env :=
  { validate_output_format := fun _ => (0, 1)
    malloc_ok := true
    strerror_errno := "Cannot allocate memory"
    ocp_get_uuid_index := fun _ => 0
    nvme_get_log := fun _ _ => (r, p)
    nvme_status_to_string := fun _ _ => "status" }

end Ocp

namespace Sed

/-! ## Shared lemmas -/

theorem opened_err_zero_iff (h : Host) (argv : List String) (v : Verb) :
    (opened h argv v).err = 0 ↔
      (parsed h argv v).err = 0 ∧ h.nvme_link_is_blkdev (parsed h argv v).l = true := by
  unfold opened parsed sed_opal_open_device
  by_cases hp : (h.parse_and_open argv (desc_of v) (opts_of v)).err = 0
  · cases hb : h.nvme_link_is_blkdev (h.parse_and_open argv (desc_of v) (opts_of v)).l <;>
      simp [hp, hb, EINVAL]
  · simp [hp]

theorem handler_of_open_failed {σ : Type} (v : Verb) (h : Host) (ch : Channel σ)
    (argv : List String) (s : σ) (ho : (opened h argv v).err ≠ 0) :
    handler v h ch argv s =
      ⟨(opened h argv v).err,
        (opened h argv v).trace ++ scope_exit (opened h argv v).r (opened h argv v).l,
        s⟩ := by
  cases v <;>
    simp only [opened, desc_of, opts_of] at ho <;>
    simp [handler, sed_opal_discover, sed_opal_initialize, sed_opal_revert,
      sed_opal_lock, sed_opal_unlock, sed_opal_password, opened, desc_of, opts_of, ho]

theorem handler_of_open_ok {σ : Type} (v : Verb) (h : Host) (ch : Channel σ)
    (argv : List String) (s : σ) (ho : (opened h argv v).err = 0) :
    handler v h ch argv s =
      ⟨(command v h ch argv s).1,
        (opened h argv v).trace
          ++ [Event.sedopal_cmd v (h.nvme_link_get_fd (opened h argv v).l)]
          ++ report v h (command v h ch argv s).1
          ++ scope_exit (opened h argv v).r (opened h argv v).l,
        (command v h ch argv s).2⟩ := by
  cases v <;>
    simp only [opened, desc_of, opts_of] at ho <;>
    simp [handler, sed_opal_discover, sed_opal_initialize, sed_opal_revert,
      sed_opal_lock, sed_opal_unlock, sed_opal_password, opened, desc_of, opts_of,
      command, cmd_of, report, ho]

theorem cmds_append (a b : List Event) : cmds (a ++ b) = cmds a ++ cmds b := by
  simp [cmds, List.filterMap_append]

theorem stderr_text_append (a b : List Event) :
    stderr_text (a ++ b) = stderr_text a ++ stderr_text b := by
  simp [stderr_text, List.filterMap_append]

theorem cmds_opened (h : Host) (argv : List String) (v : Verb) :
    cmds (opened h argv v).trace = [] := by
  unfold opened sed_opal_open_device
  simp only []
  split_ifs <;> simp [cmds]

theorem cmds_scope_exit (r l : Option Nat) : cmds (scope_exit r l) = [] := by
  cases r <;> cases l <;> simp [cmds, scope_exit, cleanup_nvme_link, cleanup_nvme_root]

theorem cmds_report (v : Verb) (h : Host) (st : Int) : cmds (report v h st) = [] := by
  cases v <;> simp only [report] <;> (try split_ifs) <;> simp [cmds]

theorem stderr_text_scope_exit (r l : Option Nat) : stderr_text (scope_exit r l) = [] := by
  cases r <;> cases l <;>
    simp [stderr_text, scope_exit, cleanup_nvme_link, cleanup_nvme_root]

theorem stderr_text_opened_ok (h : Host) (argv : List String) (v : Verb)
    (ho : (opened h argv v).err = 0) : stderr_text (opened h argv v).trace = [] := by
  unfold opened sed_opal_open_device at *
  simp only [] at *
  split_ifs at * <;> simp_all [stderr_text, EINVAL]

theorem stderr_text_handler_ok {σ : Type} (v : Verb) (h : Host) (ch : Channel σ)
    (argv : List String) (s : σ) (ho : (opened h argv v).err = 0) :
    stderr_text (handler v h ch argv s).trace =
      stderr_text (report v h (command v h ch argv s).1) := by
  have hc : stderr_text [Event.sedopal_cmd v (h.nvme_link_get_fd (opened h argv v).l)]
      = [] := rfl
  rw [handler_of_open_ok v h ch argv s ho]
  simp only [stderr_text_append, stderr_text_opened_ok h argv v ho,
    stderr_text_scope_exit, hc, List.nil_append, List.append_nil]

theorem cmds_handler_ok {σ : Type} (v : Verb) (h : Host) (ch : Channel σ)
    (argv : List String) (s : σ) (ho : (opened h argv v).err = 0) :
    cmds (handler v h ch argv s).trace = [v] := by
  have hc : cmds [Event.sedopal_cmd v (h.nvme_link_get_fd (opened h argv v).l)]
      = [v] := rfl
  rw [handler_of_open_ok v h ch argv s ho]
  simp only [cmds_append, cmds_opened, cmds_scope_exit, cmds_report, hc,
    List.nil_append, List.append_nil]

theorem no_release_before_cmd (body ex : List Event)
    (hb : ∀ x ∈ body, x.is_release = false) (he : ∀ x ∈ ex, x.is_cmd = false)
    (a b : List Event) (e : Event) (hsplit : body ++ ex = a ++ e :: b)
    (hcmd : e.is_cmd = true) : ∀ x ∈ a, x.is_release = false := by
  intro x hx
  rcases List.append_eq_append_iff.mp hsplit with ⟨a', ha, hex⟩ | ⟨c', hbody, _⟩
  · have hmem : e ∈ ex := by rw [hex]; simp
    rw [he e hmem] at hcmd
    cases hcmd
  · exact hb x (by rw [hbody]; exact List.mem_append_left _ hx)

theorem scope_exit_no_cmd (r l : Option Nat) :
    ∀ x ∈ scope_exit r l, x.is_cmd = false := by
  cases r <;> cases l <;>
    simp [scope_exit, cleanup_nvme_link, cleanup_nvme_root, Event.is_cmd]

theorem opened_no_release (h : Host) (argv : List String) (v : Verb) :
    ∀ x ∈ (opened h argv v).trace, x.is_release = false := by
  unfold opened sed_opal_open_device
  simp only []
  split_ifs <;> simp [Event.is_release]

theorem report_no_release (v : Verb) (h : Host) (st : Int) :
    ∀ x ∈ report v h st, x.is_release = false := by
  cases v <;> simp only [report] <;> (try split_ifs) <;> simp [Event.is_release]

theorem opened_handles (h : Host) (argv : List String) (v : Verb) :
    (opened h argv v).r = (parsed h argv v).r ∧
    (opened h argv v).l = (parsed h argv v).l ∧
    (opened h argv v).globals = (parsed h argv v).globals := by
  unfold opened parsed sed_opal_open_device
  simp only []
  split_ifs <;> simp

/-- Every trace of a handler is a body without release events followed by the
scope cleanup of the two handles left behind by `parse_and_open`. -/
theorem handler_trace_shape {σ : Type} (v : Verb) (h : Host) (ch : Channel σ)
    (argv : List String) (s : σ) :
    ∃ body, (handler v h ch argv s).trace
        = body ++ scope_exit (parsed h argv v).r (parsed h argv v).l ∧
      (∀ x ∈ body, x.is_release = false) ∧
      opens body = [(parsed h argv v).l] := by
  obtain ⟨hr, hl, _⟩ := opened_handles h argv v
  have hopens : opens (opened h argv v).trace = [(parsed h argv v).l] := by
    unfold opened parsed sed_opal_open_device
    simp only []
    split_ifs <;> simp [opens]
  by_cases ho : (opened h argv v).err = 0
  · refine ⟨(opened h argv v).trace
        ++ [Event.sedopal_cmd v (h.nvme_link_get_fd (opened h argv v).l)]
        ++ report v h (command v h ch argv s).1, ?_, ?_, ?_⟩
    · rw [handler_of_open_ok v h ch argv s ho, hr, hl]
    · intro x hx
      simp only [List.mem_append, List.mem_singleton] at hx
      rcases hx with (hx | hx) | hx
      · exact opened_no_release h argv v x hx
      · rw [hx]; rfl
      · exact report_no_release v h _ x hx
    · have hrep : opens (report v h (command v h ch argv s).1) = [] := by
        cases v <;> simp only [report] <;> (try split_ifs) <;> simp [opens]
      simp only [opens, List.filterMap_append] at hopens hrep ⊢
      rw [hopens, hrep]
      simp
  · refine ⟨(opened h argv v).trace, ?_, opened_no_release h argv v, hopens⟩
    rw [handler_of_open_failed v h ch argv s ho, hr, hl]

/-- C1: a handler whose device fails the block-device check (or whose
`sed_opal_open_device` call fails in any way) returns the open error unchanged
without calling its `sedopal_cmd_*` function; the block-device failure is
`-EINVAL`; and `sed_opal_open_device` returns 0 exactly when `parse_and_open`
returned 0 and the link is a block device. -/
theorem open_failure_never_reaches_channel {σ : Type} (v : Verb) (h : Host)
    (ch : Channel σ) (argv : List String) (s : σ) :
    ((parsed h argv v).err = 0 ∧ h.nvme_link_is_blkdev (parsed h argv v).l = false →
        (handler v h ch argv s).ret = -EINVAL ∧ -EINVAL ≠ 0 ∧
        cmds (handler v h ch argv s).trace = [] ∧
        (handler v h ch argv s).state = s) ∧
    ((opened h argv v).err ≠ 0 →
        (handler v h ch argv s).ret = (opened h argv v).err ∧
        cmds (handler v h ch argv s).trace = [] ∧
        (handler v h ch argv s).state = s) ∧
    ((opened h argv v).err = 0 ↔
        (parsed h argv v).err = 0 ∧
        h.nvme_link_is_blkdev (parsed h argv v).l = true) := by
  have hfail : (opened h argv v).err ≠ 0 →
      (handler v h ch argv s).ret = (opened h argv v).err ∧
      cmds (handler v h ch argv s).trace = [] ∧
      (handler v h ch argv s).state = s := by
    intro ho
    rw [handler_of_open_failed v h ch argv s ho]
    simp [cmds_append, cmds_opened, cmds_scope_exit]
  refine ⟨?_, hfail, opened_err_zero_iff h argv v⟩
  rintro ⟨hp, hb⟩
  have he : (opened h argv v).err = -EINVAL := by
    simp only [parsed] at hp hb
    simp [opened, sed_opal_open_device, hp, hb]
  have hne : -EINVAL ≠ 0 := by simp [EINVAL]
  have := hfail (by rw [he]; exact hne)
  rw [he] at this
  exact ⟨this.1, hne, this.2⟩

/-- Witness of C1: the lock handler on a character device returns `-EINVAL`
and calls no command. -/
theorem open_failure_never_reaches_channel_witness :
    (handler Verb.lock char_host (const_channel 0) [] ()).ret = -EINVAL ∧
      -EINVAL ≠ 0 ∧
      cmds (handler Verb.lock char_host (const_channel 0) [] ()).trace = [] ∧
      (handler Verb.lock char_host (const_channel 0) [] ()).state = () :=
  (open_failure_never_reaches_channel Verb.lock char_host (const_channel 0) [] ()).1
    ⟨rfl, rfl⟩

/-- C2: once `sed_opal_open_device` returned 0, a handler calls its command
once and returns exactly the status of that command; hence a handler returns 0
if and only if `parse_and_open` returned 0, the link is a block device and the
command status was 0. -/
theorem handler_returns_command_status {σ : Type} (v : Verb) (h : Host)
    (ch : Channel σ) (argv : List String) (s : σ) :
    ((opened h argv v).err = 0 →
        (handler v h ch argv s).ret = (command v h ch argv s).1 ∧
        cmds (handler v h ch argv s).trace = [v]) ∧
    ((handler v h ch argv s).ret = 0 ↔
        ((parsed h argv v).err = 0 ∧
          h.nvme_link_is_blkdev (parsed h argv v).l = true) ∧
        (command v h ch argv s).1 = 0) := by
  constructor
  · intro ho
    refine ⟨?_, cmds_handler_ok v h ch argv s ho⟩
    rw [handler_of_open_ok v h ch argv s ho]
  · rw [← opened_err_zero_iff]
    by_cases ho : (opened h argv v).err = 0
    · rw [handler_of_open_ok v h ch argv s ho]
      simp [ho]
    · rw [handler_of_open_failed v h ch argv s ho]
      simp [ho]

/-- Witness of C2: the unlock handler on a block device returns the status 7
of its command. -/
theorem handler_returns_command_status_witness :
    (handler Verb.unlock block_host (const_channel 7) [] ()).ret = 7 ∧
      cmds (handler Verb.unlock block_host (const_channel 7) [] ()).trace
        = [Verb.unlock] :=
  (handler_returns_command_status Verb.unlock block_host (const_channel 7) [] ()).1 rfl

/-- C4, as stated, fails: for status 5 the initialize handler writes a message,
and it is not the single-space form of the specification. -/
theorem single_space_message_refuted :
    stderr_text (handler Verb.init block_host (const_channel 5) [] ()).trace ≠ [] ∧
    stderr_text (handler Verb.init block_host (const_channel 5) [] ()).trace ≠
      [spec_message Verb.init (block_host.sedopal_error_to_text 5)] := by
  decide

/-- C4, amended: whenever a handler whose device was opened and validated
writes a message for status `s`, the text written is exactly
"<verb>: SED error -  <text>" with two spaces after the dash, followed by a
newline, where <text> is `sedopal_error_to_text s`. -/
theorem message_text_has_two_spaces {σ : Type} (v : Verb) (h : Host)
    (ch : Channel σ) (argv : List String) (s : σ)
    (ho : (opened h argv v).err = 0)
    (hw : stderr_text (handler v h ch argv s).trace ≠ []) :
    stderr_text (handler v h ch argv s).trace =
      [verb_name v ++ ": SED error -  "
        ++ h.sedopal_error_to_text (command v h ch argv s).1 ++ "\n"] := by
  rw [stderr_text_handler_ok v h ch argv s ho] at hw ⊢
  cases v <;> simp only [report] at hw ⊢ <;> (try split_ifs at hw ⊢) <;>
    simp_all [stderr_text, verb_name]

/-- Witness of the amended C4, at the password handler and status 5. -/
theorem message_text_has_two_spaces_witness :
    stderr_text (handler Verb.password block_host (const_channel 5) [] ()).trace =
      [verb_name Verb.password ++ ": SED error -  "
        ++ block_host.sedopal_error_to_text
            (command Verb.password block_host (const_channel 5) [] ()).1 ++ "\n"] :=
  message_text_has_two_spaces Verb.password block_host (const_channel 5) [] ()
    rfl (by decide)

/-- C6, as stated, fails: with neither `sedopal_destructive_revert` nor
`sedopal_psid_revert` set, the revert handler still calls `sedopal_cmd_revert`
and returns its status, here 0. -/
theorem revert_without_modifier_reaches_channel :
    (parsed block_host [] Verb.revert).globals.sedopal_destructive_revert = false ∧
    (parsed block_host [] Verb.revert).globals.sedopal_psid_revert = false ∧
    cmds (handler Verb.revert block_host (const_channel 0) [] ()).trace
      = [Verb.revert] ∧
    (handler Verb.revert block_host (const_channel 0) [] ()).ret = 0 := by
  decide

/-- C6, amended: `sed_opal_revert` does not examine the modifiers.  Whenever
`parse_and_open` returns 0 and the link is a block device, it calls
`sedopal_cmd_revert` exactly once, handing it the option flags as parsed, and
returns the status and leaves the device state of that call, whatever the
values of `sedopal_destructive_revert` and `sedopal_psid_revert`. -/
theorem revert_does_not_check_modifiers {σ : Type} (h : Host) (ch : Channel σ)
    (argv : List String) (s : σ)
    (hp : (parsed h argv Verb.revert).err = 0)
    (hb : h.nvme_link_is_blkdev (parsed h argv Verb.revert).l = true) :
    cmds (sed_opal_revert h ch argv s).trace = [Verb.revert] ∧
    (sed_opal_revert h ch argv s).ret =
      (ch.sedopal_cmd_revert (h.nvme_link_get_fd (parsed h argv Verb.revert).l)
        (parsed h argv Verb.revert).globals s).1 ∧
    (sed_opal_revert h ch argv s).state =
      (ch.sedopal_cmd_revert (h.nvme_link_get_fd (parsed h argv Verb.revert).l)
        (parsed h argv Verb.revert).globals s).2 := by
  have ho : (opened h argv Verb.revert).err = 0 :=
    (opened_err_zero_iff h argv Verb.revert).mpr ⟨hp, hb⟩
  obtain ⟨_, hl, hg⟩ := opened_handles h argv Verb.revert
  have hc := cmds_handler_ok Verb.revert h ch argv s ho
  have hh := handler_of_open_ok Verb.revert h ch argv s ho
  simp only [handler] at hc hh
  refine ⟨hc, ?_, ?_⟩
  · rw [hh]; simp [command, cmd_of, hl, hg]
  · rw [hh]; simp [command, cmd_of, hl, hg]

/-- Witness of the amended C6: a revert with both modifiers clear on a block
device. -/
theorem revert_does_not_check_modifiers_witness :
    cmds (sed_opal_revert block_host (const_channel 9) [] ()).trace = [Verb.revert] ∧
    (sed_opal_revert block_host (const_channel 9) [] ()).ret =
      ((const_channel 9).sedopal_cmd_revert
        (block_host.nvme_link_get_fd (parsed block_host [] Verb.revert).l)
        (parsed block_host [] Verb.revert).globals ()).1 ∧
    (sed_opal_revert block_host (const_channel 9) [] ()).state =
      ((const_channel 9).sedopal_cmd_revert
        (block_host.nvme_link_get_fd (parsed block_host [] Verb.revert).l)
        (parsed block_host [] Verb.revert).globals ()).2 :=
  revert_does_not_check_modifiers block_host (const_channel 9) [] () rfl rfl

/-- The whole trace of the lock handler on a character device: the device is
opened, fails the block-device check, and both handles are released, the link
first. -/
theorem lock_on_char_device_trace :
    (handler Verb.lock char_host (const_channel 0) [] ()).trace =
      [Event.parse_and_open "Lock a SED device" lock_opts 0 (some 1) (some 2),
       Event.nvme_link_is_blkdev (some 2),
       Event.stderr "ERROR : The NVMe block device must be specified\n",
       Event.release_link 2,
       Event.release_root 1] := by
  decide

/-- The whole trace of the unlock handler on a block device whose command
fails with status 5. -/
theorem unlock_failure_trace :
    (handler Verb.unlock block_host (const_channel 5) [] ()).trace =
      [Event.parse_and_open "Unlock a SED device" lock_opts 0 (some 1) (some 2),
       Event.nvme_link_is_blkdev (some 2),
       Event.sedopal_cmd Verb.unlock 3,
       Event.stderr "unlock: SED error -  Failed\n",
       Event.release_link 2,
       Event.release_root 1] := by
  decide

/-- C7: on every path of every handler `parse_and_open` is called exactly
once; the link handle (and likewise the root) is released exactly once if that
call left one behind and not at all otherwise; and no release comes before a
`sedopal_cmd_*` call. -/
theorem handle_opened_once_released_once {σ : Type} (v : Verb) (h : Host)
    (ch : Channel σ) (argv : List String) (s : σ) :
    opens (handler v h ch argv s).trace = [(parsed h argv v).l] ∧
    link_releases (handler v h ch argv s).trace = (parsed h argv v).l.toList ∧
    root_releases (handler v h ch argv s).trace = (parsed h argv v).r.toList ∧
    (∀ a e b, (handler v h ch argv s).trace = a ++ e :: b → e.is_cmd = true →
      ∀ x ∈ a, x.is_release = false) := by
  obtain ⟨body, htr, hbody, hopens⟩ := handler_trace_shape v h ch argv s
  have hfm : ∀ (f : Event → Option Nat), (∀ x, x.is_release = false → f x = none) →
      body.filterMap f = [] := by
    intro f hf
    rw [List.filterMap_eq_nil_iff]
    intro x hx
    exact hf x (hbody x hx)
  refine ⟨?_, ?_, ?_, ?_⟩
  · rw [htr]
    simp only [opens, List.filterMap_append] at hopens ⊢
    rw [hopens]
    cases (parsed h argv v).r <;> cases (parsed h argv v).l <;>
      simp [scope_exit, cleanup_nvme_link, cleanup_nvme_root]
  · rw [htr]
    simp only [link_releases, List.filterMap_append]
    rw [hfm _ (by intro x hx; cases x <;> simp_all [Event.is_release])]
    cases (parsed h argv v).r <;> cases (parsed h argv v).l <;>
      simp [scope_exit, cleanup_nvme_link, cleanup_nvme_root]
  · rw [htr]
    simp only [root_releases, List.filterMap_append]
    rw [hfm _ (by intro x hx; cases x <;> simp_all [Event.is_release])]
    cases (parsed h argv v).r <;> cases (parsed h argv v).l <;>
      simp [scope_exit, cleanup_nvme_link, cleanup_nvme_root]
  · intro a e b hsplit hcmd
    rw [htr] at hsplit
    exact no_release_before_cmd body _ hbody (scope_exit_no_cmd _ _) a b e hsplit hcmd

/-- C9: `sed_opal_discover` calls no command other than `sedopal_cmd_discover`,
and that one at most once; the device state after the handler is the prior
state or the state left by that single `sedopal_cmd_discover` call, so a
discover command that only reads the device leaves every state unchanged. -/
theorem discover_issues_only_discover {σ : Type} (h : Host) (ch : Channel σ)
    (argv : List String) (s : σ) :
    (cmds (sed_opal_discover h ch argv s).trace = [] ∨
      cmds (sed_opal_discover h ch argv s).trace = [Verb.discover]) ∧
    (∀ v ∈ [Verb.init, Verb.lock, Verb.unlock, Verb.revert, Verb.password],
      v ∉ cmds (sed_opal_discover h ch argv s).trace) ∧
    ((sed_opal_discover h ch argv s).state = s ∨
      (sed_opal_discover h ch argv s).state =
        (ch.sedopal_cmd_discover (h.nvme_link_get_fd (parsed h argv Verb.discover).l)
          (parsed h argv Verb.discover).globals s).2) ∧
    ((∀ fd g st, (ch.sedopal_cmd_discover fd g st).2 = st) →
      (sed_opal_discover h ch argv s).state = s) := by
  obtain ⟨_, hl, hg⟩ := opened_handles h argv Verb.discover
  by_cases ho : (opened h argv Verb.discover).err = 0
  · have hc := cmds_handler_ok Verb.discover h ch argv s ho
    have hh := handler_of_open_ok Verb.discover h ch argv s ho
    simp only [handler] at hc hh
    refine ⟨Or.inr hc, ?_, Or.inr ?_, ?_⟩
    · rw [hc]; decide
    · rw [hh]; simp [command, cmd_of, hl, hg]
    · intro hro
      rw [hh]
      exact hro _ _ _
  · have hh := handler_of_open_failed Verb.discover h ch argv s ho
    have hc : cmds (sed_opal_discover h ch argv s).trace = [] := by
      simp only [handler] at hh
      rw [hh]
      simp only [cmds_append, cmds_opened, cmds_scope_exit, List.append_nil]
    simp only [handler] at hh
    refine ⟨Or.inl hc, ?_, Or.inl ?_, ?_⟩
    · rw [hc]; simp
    · rw [hh]
    · intro _
      rw [hh]

/-- Witness of C9: on a device of the specification, whose discover command
only reads, the discover handler leaves a locked device locked. -/
theorem discover_issues_only_discover_witness :
    (sed_opal_discover block_host (init_only_channel 5) []
      ⟨true, OpalDeviceState.Locked⟩).state = ⟨true, OpalDeviceState.Locked⟩ :=
  (discover_issues_only_discover block_host (init_only_channel 5) []
    ⟨true, OpalDeviceState.Locked⟩).2.2.2 (fun _ _ _ => rfl)

/-- C8: against a device that behaves as the specification says
(`spec_cmd_initialize`, rejecting with a nonzero status), `sed_opal_initialize`
on a device in any state other than `Uninitialized` returns a nonzero status
and leaves the device unchanged, and two consecutive initialize invocations
never both return 0. -/
theorem initialize_requires_uninitialized (rej : Int) (hrej : rej ≠ 0)
    (h h2 : Host) (ch : Channel OpalDevice)
    (hch : ch.sedopal_cmd_initialize = spec_cmd_initialize rej)
    (argv argv2 : List String) (d : OpalDevice) :
    (d.state ≠ OpalDeviceState.Uninitialized →
      ( sed_opal_initialize h ch argv d).ret ≠ 0 ∧
      ( sed_opal_initialize h ch argv d).state = d) ∧
    ¬ (( sed_opal_initialize h ch argv d).ret = 0 ∧
       ( sed_opal_initialize h2 ch argv2 ( sed_opal_initialize h ch argv d).state).ret = 0) := by
  have hne : -EOPNOTSUPP ≠ 0 := by simp [EOPNOTSUPP]
  have key : ∀ (h : Host) (argv : List String) (d : OpalDevice),
      (( sed_opal_initialize h ch argv d).ret ≠ 0 ∧
        ( sed_opal_initialize h ch argv d).state = d) ∨
      (d.state = OpalDeviceState.Uninitialized ∧
        ( sed_opal_initialize h ch argv d).state.state = OpalDeviceState.Initialized) := by
    intro h argv d
    by_cases ho : (opened h argv Verb.init).err = 0
    · have hh := handler_of_open_ok Verb.init h ch argv d ho
      simp only [handler, command, cmd_of, hch] at hh
      rw [hh]
      rcases d with ⟨sup, st⟩
      cases sup <;> cases st <;> simp [ spec_cmd_initialize, hne, hrej]
    · have hh := handler_of_open_failed Verb.init h ch argv d ho
      simp only [handler] at hh
      rw [hh]
      exact Or.inl ⟨ho, rfl⟩
  constructor
  · intro hd
    rcases key h argv d with h1 | ⟨h1, _⟩
    · exact h1
    · exact absurd h1 hd
  · rintro ⟨h1, h2'⟩
    rcases key h argv d with ⟨hn, _⟩ | ⟨_, hst⟩
    · exact hn h1
    · rcases key h2 argv2 ( sed_opal_initialize h ch argv d).state with ⟨hn, _⟩ | ⟨hu, _⟩
      · exact hn h2'
      · rw [hst] at hu
        cases hu

/-- On a fresh device of the specification the first initialize succeeds and
moves the device to `Initialized`; the second one is rejected with the status
of the precondition violation, which the handler also reports. -/
theorem initialize_twice_on_fresh_device :
    ( sed_opal_initialize block_host (init_only_channel 5) []
      ⟨true, OpalDeviceState.Uninitialized⟩).ret = 0 ∧
    ( sed_opal_initialize block_host (init_only_channel 5) []
      ⟨true, OpalDeviceState.Uninitialized⟩).state = ⟨true, OpalDeviceState.Initialized⟩ ∧
    ( sed_opal_initialize block_host (init_only_channel 5) []
      ⟨true, OpalDeviceState.Initialized⟩).ret = 5 ∧
    stderr_text ( sed_opal_initialize block_host (init_only_channel 5) []
      ⟨true, OpalDeviceState.Initialized⟩).trace
        = ["initialize: SED error -  Failed\n"] := by
  decide

/-- Witness of C8: initialize on an already initialized device of the
specification is rejected and changes nothing. -/
theorem initialize_requires_uninitialized_witness :
    ( sed_opal_initialize block_host (init_only_channel 5) []
      ⟨true, OpalDeviceState.Initialized⟩).ret ≠ 0 ∧
    ( sed_opal_initialize block_host (init_only_channel 5) []
      ⟨true, OpalDeviceState.Initialized⟩).state = ⟨true, OpalDeviceState.Initialized⟩ :=
  (initialize_requires_uninitialized 5 (by decide) block_host block_host
    (init_only_channel 5) rfl [] [] ⟨true, OpalDeviceState.Initialized⟩).1 (by decide)

end Sed

namespace Ocp

/-! ## Lemmas and theorems on `get_c0_log_page` -/

theorem guid_loop_none_iff (data : ocp_smart_extended_log) (is : List (Fin 16)) :
    guid_loop data is = none ↔ ∀ i ∈ is, data.log_page_guid i = scao_guid i := by
  induction is with
  | nil => simp [guid_loop]
  | cons i rest ih =>
    simp only [guid_loop, List.mem_cons, forall_eq_or_imp]
    by_cases hi : scao_guid i = data.log_page_guid i
    · simp [hi, ih]
    · simp [hi, Ne.symm hi]

theorem prints_print_guid (g : Fin 16 → Fin 256) : prints (print_guid g) = [] := by
  simp [prints, print_guid]

theorem prints_append (a b : List Event) : prints (a ++ b) = prints a ++ prints b := by
  simp [prints, List.filterMap_append]

theorem guid_loop_full (data : ocp_smart_extended_log) :
    guid_loop data (List.finRange 16) = none ↔
      ∀ i : Fin 16, data.log_page_guid i = scao_guid i := by
  rw [guid_loop_none_iff]
  simp [List.mem_finRange]

/-- C10: when the output format validates and the allocation succeeds,
`get_c0_log_page` calls `ocp_smart_extended_log` (once, on the buffer read) if
and only if `nvme_get_log` returned 0 and all 16 bytes of `log_page_guid` equal
those of `scao_guid`; with status 0 and a differing byte it returns -1 and
prints no log data; with a nonzero status it returns that status and prints no
log data; so it returns 0 exactly when the log was read and its GUID matched. -/
theorem c0_log_printed_iff_guid_matches (env : Env) (l : Nat) (format : String)
    (format_version : Nat)
    (hv : ¬ (env.validate_output_format format).1 < 0)
    (hm : env.malloc_ok = true) :
    (prints (get_c0_log_page env l format format_version).trace ≠ [] ↔
      (env.nvme_get_log l (env.ocp_get_uuid_index l)).1 = 0 ∧
      ∀ i : Fin 16,
        (env.nvme_get_log l (env.ocp_get_uuid_index l)).2.log_page_guid i = scao_guid i) ∧
    ((env.nvme_get_log l (env.ocp_get_uuid_index l)).1 = 0 →
      (∀ i : Fin 16,
        (env.nvme_get_log l (env.ocp_get_uuid_index l)).2.log_page_guid i = scao_guid i) →
      prints (get_c0_log_page env l format format_version).trace
        = [((env.nvme_get_log l (env.ocp_get_uuid_index l)).2, format_version,
            (env.validate_output_format format).2)]) ∧
    ((env.nvme_get_log l (env.ocp_get_uuid_index l)).1 = 0 →
      (∃ i : Fin 16,
        (env.nvme_get_log l (env.ocp_get_uuid_index l)).2.log_page_guid i ≠ scao_guid i) →
      (get_c0_log_page env l format format_version).ret = -1 ∧
      prints (get_c0_log_page env l format format_version).trace = []) ∧
    ((env.nvme_get_log l (env.ocp_get_uuid_index l)).1 ≠ 0 →
      (get_c0_log_page env l format format_version).ret
        = (env.nvme_get_log l (env.ocp_get_uuid_index l)).1 ∧
      prints (get_c0_log_page env l format format_version).trace = []) ∧
    ((get_c0_log_page env l format format_version).ret = 0 ↔
      (env.nvme_get_log l (env.ocp_get_uuid_index l)).1 = 0 ∧
      ∀ i : Fin 16,
        (env.nvme_get_log l (env.ocp_get_uuid_index l)).2.log_page_guid i = scao_guid i) := by
  have hfull := guid_loop_full (env.nvme_get_log l (env.ocp_get_uuid_index l)).2
  by_cases hr : (env.nvme_get_log l (env.ocp_get_uuid_index l)).1 = 0
  · cases hloop : guid_loop (env.nvme_get_log l (env.ocp_get_uuid_index l)).2
        (List.finRange 16) with
    | none =>
      have hall := hfull.mp hloop
      have hprints : prints (get_c0_log_page env l format format_version).trace
          = [((env.nvme_get_log l (env.ocp_get_uuid_index l)).2, format_version,
              (env.validate_output_format format).2)] := by
        simp only [get_c0_log_page, hv, hm, hr, hloop, if_true, if_false,
          Bool.not_true, Bool.false_eq_true]
        split_ifs <;> simp [prints]
      have hret : (get_c0_log_page env l format format_version).ret = 0 := by
        simp [get_c0_log_page, hv, hm, hr, hloop]
      refine ⟨?_, ?_, ?_, ?_, ?_⟩
      · rw [hprints]; simp [hr, hall]
      · intro _ _; exact hprints
      · rintro _ ⟨i, hi⟩; exact absurd (hall i) hi
      · intro hne; exact absurd hr hne
      · rw [hret]; simp [hr, hall]
    | some j =>
      have hnall : ¬ ∀ i : Fin 16,
          (env.nvme_get_log l (env.ocp_get_uuid_index l)).2.log_page_guid i = scao_guid i := by
        intro hall
        rw [hfull.mpr hall] at hloop
        cases hloop
      have hprints : prints (get_c0_log_page env l format format_version).trace = [] := by
        simp only [get_c0_log_page, hv, hm, hr, hloop, if_true, if_false,
          Bool.not_true, Bool.false_eq_true]
        split_ifs <;> simp only [prints_append, prints_print_guid] <;> simp [prints]
      have hret : (get_c0_log_page env l format format_version).ret = -1 := by
        simp [get_c0_log_page, hv, hm, hr, hloop]
      refine ⟨?_, ?_, ?_, ?_, ?_⟩
      · rw [hprints]; simp [hnall]
      · intro _ hall; exact absurd hall hnall
      · intro _ _; exact ⟨hret, hprints⟩
      · intro hne; exact absurd hr hne
      · rw [hret]; simp [hnall]
  · have hprints : prints (get_c0_log_page env l format format_version).trace = [] := by
      simp only [get_c0_log_page, hv, hm, hr, if_true, if_false,
        Bool.not_true, Bool.false_eq_true]
      split_ifs <;> simp [prints]
    have hret : (get_c0_log_page env l format format_version).ret
        = (env.nvme_get_log l (env.ocp_get_uuid_index l)).1 := by
      simp [get_c0_log_page, hv, hm, hr]
    refine ⟨?_, ?_, ?_, ?_, ?_⟩
    · rw [hprints]; simp [hr]
    · intro h0; exact absurd h0 hr
    · intro h0; exact absurd h0 hr
    · intro _; exact ⟨hret, hprints⟩
    · rw [hret]; simp [hr]

/-- A page of zero bytes read with status 0 is refused with -1 and not
printed. -/
theorem zero_page_is_refused :
    (get_c0_log_page (sample_env 0 zero_page) 0 "json" 1).ret = -1 ∧
    (prints (get_c0_log_page (sample_env 0 zero_page) 0 "json" 1).trace).length = 0 ∧
    guid_loop zero_page (List.finRange 16) = some 0 := by
  decide

/-- Witness of C10: a successful read of a page carrying the expected GUID is
printed once, with the format version and flags of the call. -/
theorem c0_log_printed_iff_guid_matches_witness :
    prints (get_c0_log_page (sample_env 0 good_page) 0 "normal" 1).trace
      = [(good_page, 1, ((sample_env 0 good_page).validate_output_format "normal").2)] :=
  (c0_log_printed_iff_guid_matches (sample_env 0 good_page) 0 "normal" 1
    (by decide) rfl).2.1 rfl (fun _ => rfl)

end Ocp
